import Mathlib

/-!
Verification of the keypass credential vault (`src/keypass/main.py`).

The Python source is shallowly embedded: pure functions become Lean
functions, the SQLite table becomes an explicit list of rows threaded
through the operations, and fallible request handlers return `Except`.
Third-party library behaviour (the Fernet authenticated cipher and the
SHA-256 hash) is not part of the repository; those two pieces are
modelled from the spec and marked as such in their doc comments.
-/

deriving instance DecidableEq for Except

namespace Keypass

/-! ## Base64 and UTF-8 (used by `init_cipher`, main.py:23-26) -/

/-- Alphabet of standard base64 (RFC 4648), as used by Python's
`base64.b64encode`. -/
def b64Alphabet : List Char :=
  "ABCDEFGHIJKLMNOPQRSTUVWXYZabcdefghijklmnopqrstuvwxyz0123456789+/".toList

/-- Character of the base64 alphabet at index `n` (n < 64). -/
def b64Char (n : Nat) : Char := b64Alphabet.getD n 'A'

/-- Standard base64 encoding of a byte list with `=` padding, embedding
Python's `base64.b64encode`. -/
def b64encode : List Nat → List Char
  | [] => []
  | [a] => [b64Char (a / 4), b64Char (a % 4 * 16), '=', '=']
  | [a, b] => [b64Char (a / 4), b64Char (a % 4 * 16 + b / 16), b64Char (b % 16 * 4), '=']
  | a :: b :: c :: rest =>
      b64Char (a / 4) :: b64Char (a % 4 * 16 + b / 16) ::
      b64Char (b % 16 * 4 + c / 64) :: b64Char (c % 64) :: b64encode rest

/-- UTF-8 encoding of a single character as a list of bytes, embedding
Python's `bytes(s, "utf-8")` per character. -/
def utf8EncodeChar (c : Char) : List Nat :=
  let n := c.toNat
  if n < 128 then [n]
  else if n < 2048 then [192 + n / 64, 128 + n % 64]
  else if n < 65536 then [224 + n / 4096, 128 + n / 64 % 64, 128 + n % 64]
  else [240 + n / 262144, 128 + n / 4096 % 64, 128 + n / 64 % 64, 128 + n % 64]

/-- UTF-8 encoding of a character list, embedding Python's
`bytes(s, "utf-8")`. -/
def utf8Bytes (l : List Char) : List Nat := (l.map utf8EncodeChar).flatten

/-! ## Key derivation (`init_cipher`, main.py:23-26) -/

/-- The character string `(master_password * 8)[:32]` from main.py:25:
the password repeated 8 times, truncated to 32 characters. -/
def derivedKeyChars (p : String) : List Char :=
  ((List.replicate 8 p.toList).flatten).take 32

/-- The Fernet key built by `init_cipher` (main.py:25):
`base64.b64encode(bytes((master_password * 8)[:32], "utf-8"))`. -/
def init_cipher_key (p : String) : List Char :=
  b64encode (utf8Bytes (derivedKeyChars p))

/-- The first 32 UTF-8 bytes of the password repeated 8 times. This is the
spec's reading of key derivation ("truncating to exactly 32 bytes"), stated
for comparison with `init_cipher_key`, which truncates to 32 characters. -/
def claimKeyBytes (p : String) : List Nat :=
  (utf8Bytes ((List.replicate 8 p.toList).flatten)).take 32

/-- Base64 encoding of `claimKeyBytes`: the key the spec sentence
describes ("truncate to exactly 32 bytes, then base64-encode"). -/
def claimKey (p : String) : List Char := b64encode (claimKeyBytes p)

/-! ## Record cipher

Modelled from the spec: `cryptography.fernet.Fernet` is a third-party
library whose code is not in the repository. The spec describes it as an
authenticated symmetric scheme: decryption under the encrypting key
recovers the plaintext, decryption under any other key raises
`InvalidToken` (surfaced as the `InvalidCredentials` condition) and never
returns a plaintext. The ciphertext is modelled symbolically as the pair
of the encrypting key and the plaintext. -/

/-- A Fernet token: symbolic authenticated ciphertext carrying the key it
was produced under and the encrypted plaintext. -/
structure Ciphertext where
  key : List Char
  plain : String
deriving DecidableEq, Repr

/-- Failure raised by Fernet decryption (`cryptography.fernet.InvalidToken`). -/
inductive CipherError where
  | invalidToken
deriving DecidableEq, Repr

/-- Modelled from the spec: Fernet encryption under `key` (main.py:156-157
calls `cipher.encrypt`). -/
def encrypt (key : List Char) (plaintext : String) : Ciphertext :=
  ⟨key, plaintext⟩

/-- Modelled from the spec: Fernet decryption under `key` (main.py:160-161
calls `cipher.decrypt`); authenticates the token, failing with
`InvalidToken` under any key other than the encrypting one. -/
def decrypt (key : List Char) (c : Ciphertext) : Except CipherError String :=
  if c.key = key then .ok c.plain else .error .invalidToken

/-! ## Master-password hash (`hash_password`, main.py:35-37) -/

/-- Modelled from the spec: `hashlib.sha256(...).hexdigest()` is a
standard-library hash whose code is not in the repository; the spec asks
only for a stable, deterministic, collision-resistant one-way hash, so it
is idealised as an injective tagging of the input. -/
def hash_password (p : String) : String := "sha256:" ++ p

/-! ## Password generator (`generate_password`, main.py:164-169) -/

/-- Python's `string.ascii_letters`. -/
def ascii_letters : List Char :=
  "abcdefghijklmnopqrstuvwxyzABCDEFGHIJKLMNOPQRSTUVWXYZ".toList

/-- Python's `string.digits`. -/
def digitChars : List Char := "0123456789".toList

/-- Python's `string.punctuation`: the 32 printable ASCII characters that
are neither letters, digits nor space (codes 33-47, 58-64, 91-96,
123-126). -/
def punctuation : List Char :=
  (List.range 128).filterMap fun n =>
    if (33 ≤ n ∧ n ≤ 47) ∨ (58 ≤ n ∧ n ≤ 64) ∨ (91 ≤ n ∧ n ≤ 96) ∨ (123 ≤ n ∧ n ≤ 126)
    then some (Char.ofNat n) else none

/-- The generator's character pool (main.py:165-168): the union of
letters, digits and punctuation minus the backslash. The Python code
materialises this as `list(set(...))`, whose iteration order is
unspecified; only membership matters, since every index is drawn by
`secrets.choice`. The three source lists are disjoint, so the set union
is the concatenation. -/
def generator_charset : List Char :=
  (ascii_letters ++ digitChars ++ punctuation).filter fun c => c != '\\'

/-- The generator (main.py:164-169):
`"".join(secrets.choice(characters) for _ in range(length))`. The
cryptographic random source `secrets.choice` is modelled by an arbitrary
index stream `choice`; `length` is an integer, and Python's
`range(length)` is empty for `length ≤ 0`. -/
def generate_password (length : Int) (choice : Nat → Fin generator_charset.length) :
    String :=
  String.mk ((List.range length.toNat).map fun i => generator_charset.get (choice i))

/-- A fixed index stream for evaluating the generator at concrete inputs. -/
def choice0 : Nat → Fin generator_charset.length := fun _ => ⟨0, by decide⟩

/-! ## Vault store (SQLite table `passwords`, main.py:79-102) -/

/-- One row of the `passwords` table (main.py:84-93): surrogate id,
title, username, url, and the encrypted password. -/
structure Row where
  id : Nat
  title : String
  username : String
  url : String
  password : Ciphertext
deriving DecidableEq, Repr

/-- The `passwords` table: its rows in storage order plus the next
AUTOINCREMENT id. -/
structure DB where
  rows : List Row
  nextId : Nat
deriving DecidableEq, Repr

/-- Request body for create/update (main.py:62-67): `url` defaults to
"N/A", `password` to `None`, `generate` to `False`. -/
structure PasswordEntry where
  title : String
  username : String
  url : String := "N/A"
  password : Option String := none
  generate : Bool := false
deriving DecidableEq, Repr

/-- A record as returned by the read handlers (main.py:211, 233), with
the password decrypted. -/
structure PasswordRecord where
  title : String
  username : String
  url : String
  password : String
deriving DecidableEq, Repr

/-- The error outcomes of the request handlers: the spec's taxonomy
(`DuplicateEntry` = HTTP 400 on `sqlite3.IntegrityError`, `NotFound` =
404, `InvalidCredentials` = 401 on `InvalidToken`, `Uninitialized` =
`RuntimeError` from `get_cipher`) plus the unhandled `AttributeError`
escaping from `encrypt(None)` when no password is supplied. -/
inductive ApiError where
  | duplicateEntry
  | notFound
  | invalidCredentials
  | uninitialized
  | attributeError
deriving DecidableEq, Repr

/-- Whether row `r` has exactly the given (title, username) pair: the
`WHERE title = ? AND username = ?` condition and the column pair of the
`UNIQUE (title, username)` constraint (main.py:91). -/
def matchesPair (t u : String) (r : Row) : Bool :=
  r.title == t && r.username == u

/-- Whether some stored row already carries the (title, username) pair. -/
def hasPair (db : DB) (t u : String) : Bool :=
  db.rows.any (matchesPair t u)

/-- The POST handler `create_password` (main.py:172-191). The effective
password is the generated one when `entry.generate` else the request's
(`None` reaching `encrypt` raises AttributeError, main.py:175-176);
the INSERT raises `IntegrityError` exactly when the UNIQUE
(title, username) constraint is violated, surfaced as HTTP 400
(main.py:177-189). On success the new row is appended and the entry
echoed back. `gen` stands for the value `generate_password()` would
return on this call. -/
def create_password (key : List Char) (gen : String) (db : DB) (entry : PasswordEntry) :
    Except ApiError (DB × PasswordEntry) :=
  match (if entry.generate then some gen else entry.password) with
  | none => .error .attributeError
  | some pw =>
    if hasPair db entry.title entry.username then .error .duplicateEntry
    else .ok (⟨db.rows ++ [⟨db.nextId, entry.title, entry.username, entry.url, encrypt key pw⟩],
               db.nextId + 1⟩,
              ⟨entry.title, entry.username, entry.url, some pw, entry.generate⟩)

/-- Decryption of one fetched row (main.py:204-211): `InvalidToken`
becomes the HTTP 401 `InvalidCredentials` outcome. -/
def decryptRow (key : List Char) (r : Row) : Except ApiError PasswordRecord :=
  match decrypt key r.password with
  | .ok p => .ok ⟨r.title, r.username, r.url, p⟩
  | .error _ => .error .invalidCredentials

/-- The row loop of `read_password` (main.py:203-211): decrypts each row
in order, aborting at the first failure with no partial output. -/
def decryptRows (key : List Char) : List Row → Except ApiError (List PasswordRecord)
  | [] => .ok []
  | r :: rs =>
    match decryptRow key r with
    | .error e => .error e
    | .ok p =>
      match decryptRows key rs with
      | .error e => .error e
      | .ok ps => .ok (p :: ps)

/-- The GET-by-title handler `read_password` (main.py:194-213):
`SELECT ... WHERE title = ?`, 404 when no row matches, otherwise decrypt
every matching row. -/
def read_password (key : List Char) (db : DB) (title : String) :
    Except ApiError (List PasswordRecord) :=
  let records := db.rows.filter fun r => r.title == title
  if records.isEmpty then .error .notFound
  else decryptRows key records

/-- The GET-one handler `read_one_password` (main.py:216-233):
`SELECT ... WHERE title = ? AND username = ?` with `fetchone`, 404 when
no row matches, 401 when the row fails to decrypt. -/
def read_one_password (key : List Char) (db : DB) (t u : String) :
    Except ApiError PasswordRecord :=
  match db.rows.find? (matchesPair t u) with
  | none => .error .notFound
  | some r =>
    match decrypt key r.password with
    | .ok p => .ok ⟨t, u, r.url, p⟩
    | .error _ => .error .invalidCredentials

/-- The PUT handler `update_password` (main.py:249-267): 404 when the
(title, username) pair does not exist; then the effective password is
the generated one when `entry.generate` else the request's (`None`
reaching `encrypt` raises AttributeError, main.py:260); on success
`UPDATE ... SET password = ?, url = ? WHERE title = ? AND username = ?`
re-encrypts and overwrites url on the matching row, leaving id, title
and username unchanged. -/
def update_password (key : List Char) (gen : String) (db : DB) (entry : PasswordEntry) :
    Except ApiError (DB × PasswordEntry) :=
  if hasPair db entry.title entry.username then
    match (if entry.generate then some gen else entry.password) with
    | none => .error .attributeError
    | some pw =>
      .ok (⟨db.rows.map fun r =>
              if matchesPair entry.title entry.username r then
                ⟨r.id, r.title, r.username, entry.url, encrypt key pw⟩
              else r,
            db.nextId⟩,
           ⟨entry.title, entry.username, entry.url, some pw, entry.generate⟩)
  else .error .notFound

/-! ## Startup verification loop (`__main__`, main.py:296-315) -/

/-- Outcome of process startup: either the service is running with the
cipher initialised from the verified master password, or the process
exited with the given code before starting the service. -/
inductive StartupOutcome where
  | serve (cipherKey : List Char) (masterPassword : String)
  | exited (code : Nat)
deriving DecidableEq, Repr

/-- The verification loop body (main.py:300-310): `i` is the index of
the next `getpass` read from the input stream, `fuel` the number of
attempts still allowed (`3 - attempts`). A candidate is accepted when
`verify_master_password` finds its hash equal to the stored hash
(main.py:147-153); the `while/else` arm exits with code 0 when the
attempts are exhausted. On acceptance the flow reaches
`init_cipher(password)` (main.py:313) and serves. -/
def gateGo (storedHash : String) (inputs : Nat → String) (i : Nat) :
    Nat → StartupOutcome
  | 0 => .exited 0
  | fuel + 1 =>
    if hash_password (inputs i) = storedHash then
      .serve (init_cipher_key (inputs i)) (inputs i)
    else gateGo storedHash inputs (i + 1) fuel

/-- The startup sequence on a vault whose master-password record holds
`storedHash` (main.py:298-315): at most 3 candidates are read from
`inputs`. -/
def startup (storedHash : String) (inputs : Nat → String) : StartupOutcome :=
  gateGo storedHash inputs 0 3

/-! ## Concrete fixtures used to evaluate the operations -/

/-- Cipher key of the master password "abcd". -/
def keyW : List Char := init_cipher_key "abcd"

/-- Cipher key of a different master password, "wxyz". -/
def keyStale : List Char := init_cipher_key "wxyz"

/-- A one-row store whose record was encrypted under `keyW`. -/
def dbW : DB := ⟨[⟨1, "github", "alice", "https://github.com", encrypt keyW "pw0"⟩], 2⟩

/-- A one-row store whose record was encrypted under the stale key. -/
def dbStale : DB := ⟨[⟨1, "github", "alice", "https://github.com", encrypt keyStale "pw0"⟩], 2⟩

/-- A create request duplicating the (github, alice) pair. -/
def entryDup : PasswordEntry := ⟨"github", "alice", "N/A", some "p2", false⟩

/-- A create request with the same title but a different username. -/
def entryNew : PasswordEntry := ⟨"github", "bob", "N/A", some "p3", false⟩

/-- An update request that only supplies a new url: `password` stays at
its default `None` and `generate` at its default `False`. -/
def entryUrlOnly : PasswordEntry := ⟨"github", "alice", "https://github.com/alice", none, false⟩

/-- A one-row store keyed (mail, bob), encrypted under `keyW`. -/
def dbMail : DB := ⟨[⟨1, "mail", "bob", "N/A", encrypt keyW "mp"⟩], 2⟩

/-- A request on (mail, bob) that omits the password. -/
def entryMailNoPw : PasswordEntry := ⟨"mail", "bob", "https://mail.example", none, false⟩

/-! ## Theorems -/

/-- C1: for every master password and every string `s`, decrypting
`encrypt s` under the key derived from the same master password returns
`s`: the encrypt/decrypt pair over the same derived key is a round-trip
identity. -/
theorem roundtrip_decrypt_encrypt (p s : String) :
    decrypt (init_cipher_key p) (encrypt (init_cipher_key p) s) = .ok s := by
  simp [decrypt, encrypt]

/-- C2 counterexample: the distinct master passwords "abcd" and
"abcdabcd" derive the same repeat-and-truncate key, so a ciphertext
produced under the first decrypts successfully under the second instead
of failing with `InvalidCredentials`. -/
theorem cross_key_counterexample :
    ("abcd" : String) ≠ "abcdabcd" ∧
    decrypt (init_cipher_key "abcdabcd") (encrypt (init_cipher_key "abcd") "secret") =
      .ok "secret" :=
  ⟨by decide, by decide⟩

/-- C2 (amended): for every pair of master passwords whose derived keys
differ, decrypting under the key of one a ciphertext produced under the
key of the other always fails with the `InvalidToken` condition
(surfaced as `InvalidCredentials`) and never returns a plaintext. -/
theorem cross_key_failure (a b s : String) (h : init_cipher_key a ≠ init_cipher_key b) :
    decrypt (init_cipher_key b) (encrypt (init_cipher_key a) s) = .error .invalidToken := by
  simp [decrypt, encrypt]
  exact h

/-- C2 witness: the passwords "abcd" and "wxyz" derive different keys,
and decryption under the wrong key fails. -/
theorem cross_key_failure_witness :
    decrypt (init_cipher_key "wxyz") (encrypt (init_cipher_key "abcd") "s") =
      .error .invalidToken :=
  cross_key_failure "abcd" "wxyz" "s" (by decide)

/-- Every member of the generator's pool is a letter, digit or
punctuation character and is not the backslash. -/
theorem mem_generator_charset (c : Char) (h : c ∈ generator_charset) :
    (c ∈ ascii_letters ∨ c ∈ digitChars ∨ c ∈ punctuation) ∧ c ≠ '\\' := by
  unfold generator_charset at h
  have h2 := List.mem_filter.mp h
  refine ⟨?_, by simpa using h2.2⟩
  rcases List.mem_append.mp h2.1 with h3 | h3
  · rcases List.mem_append.mp h3 with h4 | h4
    · exact Or.inl h4
    · exact Or.inr (Or.inl h4)
  · exact Or.inr (Or.inr h3)

/-- C8: for every positive length `L` and every random stream,
`generate_password L` returns a string of exactly `L` characters, each a
letter, digit or punctuation character other than the backslash. -/
theorem generate_password_spec (L : Int)
    (choice : Nat → Fin generator_charset.length) (hL : 0 < L) :
    ((generate_password L choice).length : Int) = L ∧
    ∀ c ∈ (generate_password L choice).toList,
      (c ∈ ascii_letters ∨ c ∈ digitChars ∨ c ∈ punctuation) ∧ c ≠ '\\' := by
  constructor
  · simp [generate_password, String.length]
    exact hL.le
  · intro c hc
    apply mem_generator_charset
    simp [generate_password, String.toList] at hc
    obtain ⟨i, _, hi⟩ := hc
    rw [← hi]
    exact List.getElem_mem _

/-- C8 witness: at length 5 with a constant random stream, the generator
returns 5 characters from the pool. -/
theorem generate_password_spec_witness :
    ((generate_password 5 choice0).length : Int) = 5 ∧
    ∀ c ∈ (generate_password 5 choice0).toList,
      (c ∈ ascii_letters ∨ c ∈ digitChars ∨ c ∈ punctuation) ∧ c ≠ '\\' :=
  generate_password_spec 5 choice0 (by decide)

/-- C9 counterexample: at the non-positive length -1 the generator does
not fail with an invalid-argument error; it returns a string, namely the
empty one (`range(length)` is empty). -/
theorem generate_nonpositive_counterexample :
    (-1 : Int) ≤ 0 ∧ generate_password (-1) choice0 = "" :=
  ⟨by decide, by decide⟩

/-- C9 (amended): for every length `L ≤ 0` and every random stream, the
generator returns the empty string; no invalid-argument error is
raised. -/
theorem generate_nonpositive_empty (L : Int)
    (choice : Nat → Fin generator_charset.length) (hL : L ≤ 0) :
    generate_password L choice = "" := by
  unfold generate_password
  rw [Int.toNat_of_nonpos hL]
  rfl

/-- C9 witness: at length -2 the generator returns the empty string. -/
theorem generate_nonpositive_empty_witness :
    generate_password (-2) choice0 = "" :=
  generate_nonpositive_empty (-2) choice0 (by decide)

/-- Whenever the gate loop serves, the served password was accepted by
the hash comparison, the cipher key is derived from it, and it is one of
the inputs read during the allowed attempts. -/
theorem gateGo_serve_inv (s : String) (inp : Nat → String) :
    ∀ fuel i k p, gateGo s inp i fuel = .serve k p →
      hash_password p = s ∧ k = init_cipher_key p ∧
      ∃ j, i ≤ j ∧ j < i + fuel ∧ p = inp j := by
  intro fuel
  induction fuel with
  | zero => intro i k p h; simp [gateGo] at h
  | succ n ih =>
    intro i k p h
    simp only [gateGo] at h
    by_cases hv : hash_password (inp i) = s
    · rw [if_pos hv] at h
      cases h
      exact ⟨hv, rfl, i, le_refl i, by omega, rfl⟩
    · rw [if_neg hv] at h
      obtain ⟨h1, h2, j, hj1, hj2, hj3⟩ := ih (i + 1) k p h
      exact ⟨h1, h2, j, by omega, by omega, hj3⟩

/-- When every input offered during the allowed attempts fails the hash
comparison, the gate loop exits with code 0. -/
theorem gateGo_exhaust (s : String) (inp : Nat → String) :
    ∀ fuel i, (∀ j, i ≤ j → j < i + fuel → hash_password (inp j) ≠ s) →
      gateGo s inp i fuel = .exited 0 := by
  intro fuel
  induction fuel with
  | zero => intro i _; simp [gateGo]
  | succ n ih =>
    intro i h
    simp only [gateGo]
    rw [if_neg (h i (le_refl i) (by omega))]
    exact ih (i + 1) fun j hj1 hj2 => h j (by omega) (by omega)

/-- C7: on a vault whose master-password record holds `storedHash`, the
startup loop accepts at most 3 candidates: whenever it serves, the served
password hashes to the stored hash, the cipher was initialised from that
verified plaintext, and it was one of the first three inputs; and when
the first three inputs all fail verification, the process exits with
code 0 without serving (so the cipher is never initialised). -/
theorem startup_gate_spec (storedHash : String) (inputs : Nat → String) :
    (∀ k p, startup storedHash inputs = .serve k p →
        hash_password p = storedHash ∧ k = init_cipher_key p ∧
        ∃ i, i < 3 ∧ p = inputs i) ∧
    ((∀ i, i < 3 → hash_password (inputs i) ≠ storedHash) →
        startup storedHash inputs = .exited 0) := by
  constructor
  · intro k p h
    obtain ⟨h1, h2, j, _, hj2, hj3⟩ := gateGo_serve_inv storedHash inputs 3 0 k p h
    exact ⟨h1, h2, j, by omega, hj3⟩
  · intro h
    exact gateGo_exhaust storedHash inputs 3 0 fun j _ hj2 => h j (by omega)

/-- C7 witness: with the stored hash of "abcd" and a stream of wrong
candidates, startup exits with code 0. -/
theorem startup_gate_spec_witness :
    startup (hash_password "abcd") (fun _ => "nope") = .exited 0 :=
  (startup_gate_spec (hash_password "abcd") (fun _ => "nope")).2 (by decide)

/-- C4: a create call carrying an effective password fails with
`DuplicateEntry` and inserts nothing when a record with the same
(title, username) pair already exists — the failure comes from the
store's UNIQUE constraint at the insert itself — and succeeds when no
record has the pair (in particular with the same title but a different
username), appending exactly one new row. -/
theorem create_unique (key : List Char) (gen : String) (db : DB) (entry : PasswordEntry)
    (hpw : (if entry.generate then some gen else entry.password).isSome = true) :
    (hasPair db entry.title entry.username = true →
      create_password key gen db entry = .error .duplicateEntry) ∧
    (hasPair db entry.title entry.username = false →
      ∃ pw, (if entry.generate then some gen else entry.password) = some pw ∧
        create_password key gen db entry =
          .ok (⟨db.rows ++ [⟨db.nextId, entry.title, entry.username, entry.url, encrypt key pw⟩],
                db.nextId + 1⟩,
               ⟨entry.title, entry.username, entry.url, some pw, entry.generate⟩)) := by
  rcases hsome : (if entry.generate then some gen else entry.password) with _ | pw
  · rw [hsome] at hpw; simp at hpw
  · constructor
    · intro hdup
      simp [create_password, hsome, hdup]
    · intro hnew
      exact ⟨pw, rfl, by simp [create_password, hsome, hnew]⟩

/-- C4 witness: on a store holding (github, alice), creating
(github, alice) again fails with `DuplicateEntry`, and creating
(github, bob) succeeds. -/
theorem create_unique_witness :
    create_password keyW "g" dbW entryDup = .error .duplicateEntry ∧
    (∃ pw, (if entryNew.generate then some "g" else entryNew.password) = some pw ∧
      create_password keyW "g" dbW entryNew =
        .ok (⟨dbW.rows ++ [⟨dbW.nextId, entryNew.title, entryNew.username, entryNew.url,
                encrypt keyW pw⟩], dbW.nextId + 1⟩,
             ⟨entryNew.title, entryNew.username, entryNew.url, some pw, entryNew.generate⟩)) :=
  ⟨(create_unique keyW "g" dbW entryDup (by decide)).1 (by decide),
   (create_unique keyW "g" dbW entryNew (by decide)).2 (by decide)⟩

/-- C10: a create request whose `generate` flag is false and whose
password field is omitted (`None`) fails with the unhandled
AttributeError from `encrypt(None)`; an update request on an existing
record does the same, even when the caller only supplies a new url; and
that outcome lies outside the spec's error taxonomy. -/
theorem missing_password_attribute_error (key : List Char) (gen : String) (db : DB)
    (entry : PasswordEntry) (hg : entry.generate = false) (hp : entry.password = none) :
    create_password key gen db entry = .error .attributeError ∧
    (hasPair db entry.title entry.username = true →
      update_password key gen db entry = .error .attributeError) ∧
    (ApiError.attributeError ≠ .duplicateEntry ∧ ApiError.attributeError ≠ .notFound ∧
      ApiError.attributeError ≠ .invalidCredentials ∧
      ApiError.attributeError ≠ .uninitialized) := by
  refine ⟨?_, ?_, by decide⟩
  · simp [create_password, hg, hp]
  · intro h
    simp [update_password, h, hg, hp]

/-- C10 witness: on a store holding (mail, bob), both the create and the
update request omitting the password end in the AttributeError
outcome. -/
theorem missing_password_witness :
    create_password keyW "g" dbMail entryMailNoPw = .error .attributeError ∧
    update_password keyW "g" dbMail entryMailNoPw = .error .attributeError :=
  ⟨(missing_password_attribute_error keyW "g" dbMail entryMailNoPw rfl rfl).1,
   (missing_password_attribute_error keyW "g" dbMail entryMailNoPw rfl rfl).2.1 (by decide)⟩

/-- C6 (code evaluated at the failing input): on a store holding
(github, alice), an update that supplies only a new url — password left
at its `None` default — does not leave the password unchanged; it fails
with the unhandled AttributeError from `encrypt(None)`, while a getOne
on the untouched store still returns the old url and old password. -/
theorem update_url_only_crash :
    update_password keyW "g" dbW entryUrlOnly = .error .attributeError ∧
    read_one_password keyW dbW "github" "alice" =
      .ok ⟨"github", "alice", "https://github.com", "pw0"⟩ :=
  ⟨by decide, by decide⟩

/-- Decryption under the key a token was produced under succeeds with
the stored plaintext. -/
theorem decrypt_ok_of_key (key : List Char) (c : Ciphertext) (h : c.key = key) :
    decrypt key c = .ok c.plain := by
  simp [decrypt, h]

/-- Decryption under a key other than the one a token was produced
under fails. -/
theorem decrypt_error_of_ne (key : List Char) (c : Ciphertext) (h : c.key ≠ key) :
    decrypt key c = .error .invalidToken := by
  simp [decrypt, h]

/-- When every row decrypts, the row loop returns all rows decrypted, in
order. -/
theorem decryptRows_ok (key : List Char) (l : List Row)
    (h : ∀ r ∈ l, decrypt key r.password = .ok r.password.plain) :
    decryptRows key l =
      .ok (l.map fun r => ⟨r.title, r.username, r.url, r.password.plain⟩) := by
  induction l with
  | nil => rfl
  | cons r rs ih =>
    have hr := h r (List.mem_cons_self r rs)
    have ht := ih fun x hx => h x (List.mem_cons_of_mem r hx)
    simp [decryptRows, decryptRow, hr, ht]

/-- When some row fails to decrypt, the row loop aborts with
`InvalidCredentials` and returns no records. -/
theorem decryptRows_error (key : List Char) (l : List Row)
    (h : ∃ r ∈ l, decrypt key r.password = .error .invalidToken) :
    decryptRows key l = .error .invalidCredentials := by
  induction l with
  | nil => simp at h
  | cons r rs ih =>
    by_cases hr : decrypt key r.password = .error .invalidToken
    · simp [decryptRows, decryptRow, hr]
    · have hkey : r.password.key = key := by
        by_contra hne
        exact hr (decrypt_error_of_ne key r.password hne)
      have hok := decrypt_ok_of_key key r.password hkey
      obtain ⟨x, hx, hxe⟩ := h
      rcases List.mem_cons.mp hx with heq | hx2
      · exact absurd (heq ▸ hxe) hr
      · have ht := ih ⟨x, hx2, hxe⟩
        simp [decryptRows, decryptRow, hok, ht]

/-- C5: for every key, store and title, the GET-by-title handler fails
with `NotFound` when no stored row matches the title; fails with
`InvalidCredentials` and returns no records when any matching row fails
to decrypt; and returns every matching row with its password decrypted
when all of them decrypt. -/
theorem read_by_title_spec (key : List Char) (db : DB) (title : String) :
    (db.rows.filter (fun r => r.title == title) = [] →
        read_password key db title = .error .notFound) ∧
    ((∃ r ∈ db.rows.filter (fun r => r.title == title),
        decrypt key r.password = .error .invalidToken) →
        read_password key db title = .error .invalidCredentials) ∧
    (db.rows.filter (fun r => r.title == title) ≠ [] →
        (∀ r ∈ db.rows.filter (fun r => r.title == title),
          decrypt key r.password = .ok r.password.plain) →
        read_password key db title =
          .ok ((db.rows.filter (fun r => r.title == title)).map
                fun r => ⟨r.title, r.username, r.url, r.password.plain⟩)) := by
  refine ⟨?_, ?_, ?_⟩
  · intro h
    simp [read_password, h]
  · intro h
    have hne : db.rows.filter (fun r => r.title == title) ≠ [] := by
      intro heq
      rw [heq] at h
      simp at h
    simp only [read_password]
    rw [if_neg (by simpa using hne)]
    exact decryptRows_error key _ h
  · intro hnil h
    simp only [read_password]
    rw [if_neg (by simpa using hnil)]
    exact decryptRows_ok key _ h

/-- C5 witness: a missing title yields `NotFound`; a title whose row was
encrypted under a stale key yields `InvalidCredentials` and no partial
result; a title whose rows all decrypt yields them all. -/
theorem read_by_title_spec_witness :
    read_password keyW dbW "nosuch" = .error .notFound ∧
    read_password keyW dbStale "github" = .error .invalidCredentials ∧
    read_password keyW dbW "github" =
      .ok [⟨"github", "alice", "https://github.com", "pw0"⟩] :=
  ⟨(read_by_title_spec keyW dbW "nosuch").1 (by decide),
   (read_by_title_spec keyW dbStale "github").2.1 (by decide),
   (read_by_title_spec keyW dbW "github").2.2 (by decide) (by decide)⟩

/-- An ASCII character encodes to its own single byte under UTF-8. -/
theorem utf8EncodeChar_ascii (c : Char) (h : c.toNat < 128) :
    utf8EncodeChar c = [c.toNat] := by
  simp [utf8EncodeChar, h]

/-- A list of ASCII characters encodes byte-for-byte under UTF-8. -/
theorem utf8Bytes_ascii (l : List Char) (h : ∀ c ∈ l, c.toNat < 128) :
    utf8Bytes l = l.map Char.toNat := by
  induction l with
  | nil => rfl
  | cons c cs ih =>
    have h1 := utf8EncodeChar_ascii c (h c (List.mem_cons_self c cs))
    have h2 := ih fun x hx => h x (List.mem_cons_of_mem c hx)
    simp only [utf8Bytes, List.map_cons, List.flatten_cons] at h2 ⊢
    rw [h1, h2]
    rfl

/-- Members of the flattening of a replicated list are members of the
list. -/
theorem mem_flatten_replicate (n : Nat) (l : List Char) (c : Char)
    (h : c ∈ (List.replicate n l).flatten) : c ∈ l := by
  obtain ⟨s, hs, hc⟩ := List.mem_flatten.mp h
  rwa [List.eq_of_mem_replicate hs] at hc

/-- Length of the flattening of a replicated list. -/
theorem flatten_replicate_length (n : Nat) (l : List Char) :
    ((List.replicate n l).flatten).length = n * l.length := by
  induction n with
  | zero => simp
  | succ m ih =>
    rw [List.replicate_succ, List.flatten_cons, List.length_append, ih]
    ring

/-- For a master password of at least 4 characters, the repeated and
truncated key string has exactly 32 characters. -/
theorem derivedKeyChars_length (p : String) (h : 4 ≤ p.length) :
    (derivedKeyChars p).length = 32 := by
  have hl : p.toList.length = p.length := rfl
  unfold derivedKeyChars
  rw [List.length_take, flatten_replicate_length]
  omega

/-- When the base list already has at least 32 elements, truncating its
8-fold repetition to 32 is truncating the list itself. -/
theorem flatten_replicate_take (l : List Char) (h : 32 ≤ l.length) :
    ((List.replicate 8 l).flatten).take 32 = l.take 32 := by
  have e : (List.replicate 8 l).flatten = l ++ (List.replicate 7 l).flatten := by
    rw [show (8 : Nat) = 7 + 1 from rfl, List.replicate_succ, List.flatten_cons]
  rw [e, List.take_append_eq_append_take, show 32 - l.length = 0 from by omega,
    List.take_zero, List.append_nil]

/-- C3 counterexample: the master password "éééé" has the minimum
length 4, yet the pre-base64 key material of `init_cipher` is 64 bytes —
truncation happens on characters, not bytes — so the produced key is not
the base64 encoding of an exactly-32-byte truncation. -/
theorem key_derivation_counterexample :
    4 ≤ ("éééé" : String).length ∧
    (utf8Bytes (derivedKeyChars "éééé")).length = 64 ∧
    init_cipher_key "éééé" ≠ claimKey "éééé" :=
  ⟨by decide, by decide, by decide⟩

/-- C3 (amended): for every master password of length at least 4 whose
characters are ASCII, the key built by `init_cipher` is the base64
encoding of the exactly-32-byte truncation of the password repeated 8
times — so for ASCII passwords the 32 truncated characters are exactly
32 bytes — and passwords longer than 32 characters have their extra
characters ignored. -/
theorem key_derivation_ascii (p : String) (h4 : 4 ≤ p.length)
    (hascii : ∀ c ∈ p.toList, c.toNat < 128) :
    init_cipher_key p = claimKey p ∧
    (utf8Bytes (derivedKeyChars p)).length = 32 ∧
    (32 ≤ p.length → init_cipher_key p = init_cipher_key (String.mk (p.toList.take 32))) := by
  have hflat : ∀ c ∈ (List.replicate 8 p.toList).flatten, c.toNat < 128 :=
    fun c hc => hascii c (mem_flatten_replicate 8 _ c hc)
  have hkey : ∀ c ∈ derivedKeyChars p, c.toNat < 128 :=
    fun c hc => hascii c (mem_flatten_replicate 8 _ c (List.mem_of_mem_take hc))
  have h1 : utf8Bytes (derivedKeyChars p) = (derivedKeyChars p).map Char.toNat :=
    utf8Bytes_ascii _ hkey
  have hlen : p.toList.length = p.length := rfl
  refine ⟨?_, ?_, ?_⟩
  · show b64encode (utf8Bytes (derivedKeyChars p)) =
      b64encode ((utf8Bytes ((List.replicate 8 p.toList).flatten)).take 32)
    rw [h1, utf8Bytes_ascii _ hflat, ← List.map_take]
    rfl
  · rw [h1, List.length_map]
    exact derivedKeyChars_length p h4
  · intro h32
    have e1 : derivedKeyChars p = p.toList.take 32 :=
      flatten_replicate_take p.toList (by omega)
    have e2 : derivedKeyChars (String.mk (p.toList.take 32)) = p.toList.take 32 := by
      unfold derivedKeyChars
      rw [show (String.mk (p.toList.take 32)).toList = p.toList.take 32 from rfl]
      rw [flatten_replicate_take _ (by rw [List.length_take]; omega)]
      rw [List.take_take]
      simp
    unfold init_cipher_key
    rw [e1, e2]

/-- C3 witness: the ASCII password "abcd" meets the length gate, its key
equals the byte-truncation reading, and its key material is exactly 32
bytes. -/
theorem key_derivation_ascii_witness :
    init_cipher_key "abcd" = claimKey "abcd" ∧
    (utf8Bytes (derivedKeyChars "abcd")).length = 32 :=
  ⟨(key_derivation_ascii "abcd" (by decide) (by decide)).1,
   (key_derivation_ascii "abcd" (by decide) (by decide)).2.1⟩

end Keypass
